import Mathlib

/-!
Verification development for the swc TypeScript checker's semantic analyzer
(`src/typescript/checker`). The data model and the operations below are a
shallow embedding of the Rust source files `analyzer/expr.rs`,
`analyzer/class.rs`, `analyzer/export.rs` and `analyzer/mod.rs`.

Conventions of the embedding:
 * machine floats (`f64` number values) appear in the claims only as small
   ordinals and literal constants, so numeric payloads are carried as `Nat`;
 * `unimplemented!`, `unreachable!`, failed `unwrap`/`expect` calls are
   modelled as distinct error values (in the Rust source they abort the
   process, so they are observationally distinct from every `Ok`/`Err`);
 * the mutually recursive expression-typing functions are given a fuel
   argument so that they are total; every recursive call consumes one unit.
   The Rust source has no such bound and can diverge on cyclic data; all
   claims hold for every sufficient fuel value;
 * scope lookups (`find_type`, `find_var_type`, `find_var`) and the builtin
   tables live in `scope.rs` / `builtin_types.rs`, which are not part of the
   sources under test; they are modelled from the spec as finite maps.
-/

namespace TsCheck

/-- Source span (byte offsets), `swc_common::Span`.  Spans are carried for
error attribution exactly as in the source. -/
structure Span where
  lo : Nat
  hi : Nat
deriving DecidableEq, Repr

/-- `DUMMY_SP` of `swc_common`. -/
def dummySpan : Span := ⟨0, 0⟩

/-- Keyword type kinds, `TsKeywordTypeKind`. -/
inductive KeywordKind where
  | any | number | string | boolean | nullKw | undefined | void | never
  | symbol | object | unknown
deriving DecidableEq, Repr

/-- Literal type payloads, `TsLit` (numbers are `f64` in the source; the
claims only exercise small naturals). -/
inductive TsLitVal where
  | bool (value : Bool)
  | num (value : Nat)
  | str (value : String)
deriving DecidableEq, Repr

/-- Type arguments at a call site, `TsTypeParamInstantiation`.  None of the
functions under test ever read the argument types themselves (the arity
check on them is commented out in `try_instantiate`), so only the spine is
kept. -/
structure TsTypeParamInstantiation where
  params : List Unit
deriving DecidableEq, Repr

/-- A declared type parameter, `TsTypeParam` (only the fields the checker
consults are kept; `default` is read solely by the commented-out arity
check). -/
structure TsTypeParam where
  name : String
  hasDefault : Bool
deriving DecidableEq, Repr

/-- `TsTypeParamDecl`. -/
structure TsTypeParamDecl where
  params : List TsTypeParam
deriving DecidableEq, Repr

/-- A formal function parameter, `TsFnParam`: an identifier pattern with its
`optional` flag, or one of the non-identifier patterns (rest/array/object),
which `try_instantiate` treats uniformly as required. -/
inductive TsFnParam where
  | ident (sym : String) (optional : Bool) (span : Span)
  | rest (span : Span)
  | array (span : Span)
  | object (span : Span)
deriving DecidableEq, Repr

/-- Expressions, `swc_ecma_ast::Expr`, restricted to the constructors the
claims exercise.  `call`/`newExpr` arguments are `(spread?, expr)` pairs
(`ExprOrSpread`). -/
inductive Expr where
  | ident (sym : String) (span : Span)
  | litBool (value : Bool) (span : Span)
  | litNum (value : Nat) (span : Span)
  | litStr (value : String) (span : Span)
  | litNull (span : Span)
  | member (obj : Expr) (prop : Expr) (computed : Bool) (span : Span)
  | call (callee : Expr) (args : List (Bool × Expr))
      (typeArgs : Option TsTypeParamInstantiation) (span : Span)
  | newExpr (callee : Expr) (args : List (Bool × Expr))
      (typeArgs : Option TsTypeParamInstantiation) (span : Span)
  | tsNonNull (expr : Expr) (span : Span)
  | yieldExpr (span : Span)

/-- `Expr::span()`. -/
def Expr.spanOf : Expr → Span
  | .ident _ s => s
  | .litBool _ s => s
  | .litNum _ s => s
  | .litStr _ s => s
  | .litNull s => s
  | .member _ _ _ s => s
  | .call _ _ _ s => s
  | .newExpr _ _ _ s => s
  | .tsNonNull _ s => s
  | .yieldExpr s => s

/-- One enum member, `TsEnumMember`: a name and an optional constant
initializer expression. -/
structure TsEnumMember where
  id : String
  idSpan : Span
  init : Option Expr

/-- An enum declaration, `TsEnumDecl`. -/
structure TsEnumDecl where
  id : String
  span : Span
  members : List TsEnumMember

/-- The structural type model, `ty::Type`, restricted to the variants the
claims exercise.  `fn` is `ty::Function`, `ctorFn` is `ty::Constructor`,
`enumDecl` is `Type::Enum`, `enumVariant` is `Type::EnumVariant`. -/
inductive Ty where
  | keyword (kind : KeywordKind) (span : Span)
  | lit (value : TsLitVal) (span : Span)
  | union (types : List Ty) (span : Span)
  | fn (params : List TsFnParam) (typeParams : Option TsTypeParamDecl)
      (retTy : Ty) (span : Span)
  | ctorFn (params : List TsFnParam) (typeParams : Option TsTypeParamDecl)
      (retTy : Ty) (span : Span)
  | enumDecl (decl : TsEnumDecl)
  | enumVariant (enumName : String) (name : String) (span : Span)

/-- `Type::span()`. -/
def Ty.spanOf : Ty → Span
  | .keyword _ s => s
  | .lit _ s => s
  | .union _ s => s
  | .fn _ _ _ s => s
  | .ctorFn _ _ _ s => s
  | .enumDecl d => d.span
  | .enumVariant _ _ s => s

/-- `Type::any(span)`. -/
def Ty.any (span : Span) : Ty := Ty.keyword .any span

/-- `Type::undefined(span)`. -/
def Ty.undefinedTy (span : Span) : Ty := Ty.keyword .undefined span

/-- Diagnostics, `errors::Error`, restricted to the kinds the claims
exercise.  The constructors after `errorsGroup` model `unimplemented!`,
`unreachable!` and failed `unwrap`/`expect` calls (process aborts in the
Rust source); `unimplementedAccess` carries the object type exactly as the
panic message of `access_property` formats it. -/
inductive Error where
  | undefinedSymbol (span : Span)
  | noCallSignature (span : Span) (callee : Ty)
  | noNewSignature (span : Span) (callee : Ty)
  | wrongParams (span : Span) (callee : Span)
      (expectedMin expectedMax : Nat) (actual : Nat)
  | unionError (span : Span) (errors : List Error)
  | ts2391 (span : Span)
  | ts2389 (span : Span)
  | ts2369 (span : Span)
  | ts1016 (span : Span)
  | ts1166 (span : Span)
  | ts2585 (span : Span)
  | errorsGroup (span : Span) (errors : List Error)
  | unimplementedAccess (obj : Ty)
  | unreachableLitAccess
  | unreachableNoVariant (enumName : String) (name : String)
  | unreachableNoEnum (enumName : String)
  | unreachableRequireTypeOf
  | unimplementedDynamicRequire
  | unimplementedRequireSpread
  | unimplementedRequireDep
  | unwrapFailed
  | expectFailed (msg : String)
  | unimplementedComputedCall
  | outOfFuel

/-- Modelled from the spec: the analyzer's read-only lookup environment.
`scope.rs` and `builtin_types.rs` are not among the sources under test;
per spec §3 a scope holds variable and type maps with narrowing facts
layered over variable reads, and the builtin library is a read-only map.
All are modelled as finite association lists.  `resolvedImports` is the
analyzer's own `resolved_imports` field (`analyzer/mod.rs`). -/
structure Env where
  resolvedImports : List (String × Ty)
  typeBindings : List (String × Ty)
  varTypeBindings : List (String × Ty)
  varNames : List String
  builtinVars : List (String × Ty)
  builtinTypes : List (String × Ty)

/-- `Analyzer::find_type`: scope-chain type lookup (modelled as a map). -/
def find_type (env : Env) (sym : String) : Option Ty :=
  env.typeBindings.lookup sym

/-- `Analyzer::find_var_type`: the (possibly narrowed) type of a variable
binding (modelled as a map; spec §3: facts are consulted before vars, so
this map already reflects the facts overlay). -/
def find_var_type (env : Env) (sym : String) : Option Ty :=
  env.varTypeBindings.lookup sym

/-- `Analyzer::find_var`: whether a variable binding exists at all. -/
def find_var (env : Env) (sym : String) : Bool :=
  env.varNames.contains sym

/-- `builtin_types::get_var`. -/
def builtin_get_var (env : Env) (sym : String) : Option Ty :=
  env.builtinVars.lookup sym

/-- `builtin_types::get_type`. -/
def builtin_get_type (env : Env) (sym : String) : Option Ty :=
  env.builtinTypes.lookup sym

/-- Modelled from the spec: `generalize_lit` of the `ty` module (not among
the sources under test) widens a literal type to its base keyword
("collapsing a literal type to its base keyword type", spec glossary);
other types are returned unchanged. -/
def generalize_lit : Ty → Ty
  | .lit v span =>
    .keyword
      (match v with
        | .bool _ => .boolean
        | .num _ => .number
        | .str _ => .string)
      span
  | ty => ty

/-- Modelled from the spec: `Type::normalize` of the `ty` module (not among
the sources under test) strips reference-counting/Cow indirection; on this
first-order fragment it is the identity. -/
def Ty.normalize (ty : Ty) : Ty := ty

/-- A falsy type atom: the keywords `null` and `undefined` and the falsy
literals `false`, `0`, `""`. -/
def is_falsy_atom : Ty → Bool
  | .keyword .nullKw _ => true
  | .keyword .undefined _ => true
  | .lit (.bool false) _ => true
  | .lit (.num 0) _ => true
  | .lit (.str "") _ => true
  | _ => false

/-- Modelled from the spec: `remove_falsy` of `control_flow.rs` (not among
the sources under test): produces "the type of `e` with its falsy
constituents removed" — a falsy atom becomes `never`, the falsy members of
a (normalized, hence flat) union are dropped, collapsing single-member
unions and mapping empty ones to `never` (spec §3 invariants); all other
types are unchanged. -/
def remove_falsy (ty : Ty) : Ty :=
  match ty with
  | .union types span =>
    match types.filter fun t => !is_falsy_atom t with
    | [] => .keyword .never span
    | [t] => t
    | ts => .union ts span
  | t => if is_falsy_atom t then .keyword .never t.spanOf else t

/-- `ExtractKind` of `expr.rs`. -/
inductive ExtractKind where
  | call
  | new
deriving DecidableEq, Repr

/-- `try_instantiate` (`expr.rs`): the type-parameter arity check is
commented out in the source; the argument-count check accepts
`min ..= param_decls.len()` actual arguments, `min` counting the formals
that are not optional identifier patterns; on success the formal return
type is returned unchanged. -/
def try_instantiate (span calleeSpan : Span) (retType : Ty)
    (paramDecls : List TsFnParam) (_tyParamsDecl : Option TsTypeParamDecl)
    (args : List (Bool × Expr)) (_i : Option TsTypeParamInstantiation) :
    Except Error Ty :=
  let min :=
    (paramDecls.filter fun p =>
      match p with
      | .ident _ true _ => false
      | _ => true).length
  if min ≤ args.length ∧ args.length ≤ paramDecls.length then
    .ok retType
  else
    .error (.wrongParams span calleeSpan min paramDecls.length args.length)

/-- The mutually recursive expression-typing cluster of `expr.rs`
(`type_of`, `access_property`, `extract_call_new_expr_member`, `extract`)
expressed as one request type, so that the whole cluster is a single
structural recursion on fuel.  Each constructor is one source function;
`extractUnionReq` is the error-accumulating loop of `extract`'s
`Type::Union` arm. -/
inductive Req where
  | typeOfReq (e : Expr)
  | accessPropertyReq (span : Span) (obj : Ty) (prop : Expr) (computed : Bool)
  | extractCallNewExprMemberReq (callee : Expr) (kind : ExtractKind)
      (args : List (Bool × Expr)) (typeArgs : Option TsTypeParamInstantiation)
  | extractReq (span : Span) (ty : Ty) (kind : ExtractKind)
      (args : List (Bool × Expr)) (typeArgs : Option TsTypeParamInstantiation)
  | extractUnionReq (span : Span) (wholeTy : Ty) (tys : List Ty)
      (kind : ExtractKind) (args : List (Bool × Expr))
      (typeArgs : Option TsTypeParamInstantiation) (errs : List Error)

/-- Evaluator for `Req`; every recursive call of the source consumes one
unit of fuel.  Each arm is a direct translation of the corresponding
function body in `expr.rs` (comments give the line numbers). -/
def evalReq (env : Env) : Nat → Req → Except Error Ty
  | 0, _ => .error .outOfFuel
  | fuel + 1, req =>
    match req with
    -- `type_of`, expr.rs:14-342 (the arms of the fragment)
    | .typeOfReq e =>
      let span := e.spanOf
      match e with
      | .ident sym ispan =>
        -- expr.rs:22-25, the special case for the `undefined` identifier
        if sym = "undefined" then .ok (Ty.undefinedTy span)
        -- expr.rs:28-30
        else if sym = "require" then .error .unreachableRequireTypeOf
        else
          -- expr.rs:32-34
          match env.resolvedImports.lookup sym with
          | some ty => .ok ty
          | none =>
          -- expr.rs:36-38
          match find_type env sym with
          | some ty => .ok ty
          | none =>
          -- expr.rs:40-42
          match find_var_type env sym with
          | some ty => .ok ty
          | none =>
          -- expr.rs:44-51
          if find_var env sym then .ok (Ty.any span)
          else
          -- expr.rs:53-55
          match builtin_get_var env sym with
          | some ty => .ok ty
          | none => .error (.undefinedSymbol ispan)
      | .litBool v s => .ok (.lit (.bool v) s)
      | .litStr v s => .ok (.lit (.str v) s)
      | .litNum v s => .ok (.lit (.num v) s)
      | .litNull s => .ok (.keyword .nullKw s)
      -- expr.rs:285-295
      | .member obj prop computed _ =>
        match evalReq env fuel (.typeOfReq obj) with
        | .error err => .error err
        | .ok objTy =>
          evalReq env fuel (.accessPropertyReq span objTy prop computed)
      -- expr.rs:243-259
      | .call callee args typeArgs _ =>
        evalReq env fuel (.extractCallNewExprMemberReq callee .call args typeArgs)
      -- expr.rs:228-241
      | .newExpr callee args typeArgs _ =>
        evalReq env fuel (.extractCallNewExprMemberReq callee .new args typeArgs)
      -- expr.rs:177-183
      | .tsNonNull e' _ =>
        (evalReq env fuel (.typeOfReq e')).map remove_falsy
      -- expr.rs:202
      | .yieldExpr s => .ok (Ty.any s)

    -- `access_property`, expr.rs:359-416
    | .accessPropertyReq span obj prop computed =>
      let obj := generalize_lit obj
      match obj with
      -- expr.rs:368
      | .lit _ _ => .error .unreachableLitAccess
      -- expr.rs:370-382
      | .enumDecl e =>
        (match prop, computed with
          | .ident v _, false => .ok (.enumVariant e.id v span)
          | _, _ => .error (.unimplementedAccess (Ty.enumDecl e)))
      -- expr.rs:387-410: the member loop of the source returns on its
      -- first iteration, so only `members[0]` (ordinal 0) is consulted.
      | .enumVariant enumName name evSpan =>
        (match find_type env enumName with
          | some (.enumDecl e) =>
            (match e.members with
              | [] => .error (.unreachableNoVariant enumName name)
              | m :: _ =>
                let newObj := m.init.getD (Expr.litNum 0 evSpan)
                match evalReq env fuel (.typeOfReq newObj) with
                | .error err => .error err
                | .ok newObjTy =>
                  evalReq env fuel
                    (.accessPropertyReq evSpan newObjTy prop computed))
          | some _ => .error (.unreachableNoEnum enumName)
          | none => .error (.unreachableNoEnum enumName))
      -- expr.rs:415
      | _ => .error (.unimplementedAccess obj)

    -- `extract_call_new_expr_member`, expr.rs:612-780
    | .extractCallNewExprMemberReq callee kind args typeArgs =>
      let span := callee.spanOf
      match callee with
      -- expr.rs:673-701: `require(...)`
      | .ident sym isp =>
        if sym = "require" then
          match args with
          | [] => .error .unwrapFailed
          | (true, _) :: _ => .error .unimplementedRequireSpread
          | (false, .litStr v _) :: _ =>
            if (env.resolvedImports.lookup v).isSome then
              .error .unimplementedRequireDep
            else .error (.undefinedSymbol isp)
          | (false, _) :: _ => .error .unimplementedDynamicRequire
        else
          -- expr.rs:774-779, the default arm
          match evalReq env fuel (.typeOfReq callee) with
          | .error err => .error err
          | .ok ty => evalReq env fuel (.extractReq span ty kind args typeArgs)
      -- expr.rs:703-773: member-expression callees (the interface /
      -- type-literal member-search arms act on type variants outside this
      -- fragment; the fragment's variants fall through as in the source)
      | .member obj _prop computed _ =>
        (match evalReq env fuel (.typeOfReq obj) with
        | .error err => .error err
        | .ok objTy0 =>
          let objType := generalize_lit objTy0
          -- expr.rs:758-772: the fall-through after the `match`
          let fallback : Except Error Ty :=
            if computed then .error .unimplementedComputedCall
            else
              match evalReq env fuel (.typeOfReq callee) with
              | .error err => .error err
              | .ok calleeTy =>
                .error
                  (match kind with
                    | .call => .noCallSignature span calleeTy
                    | .new => .noNewSignature span calleeTy)
          match objType with
          -- expr.rs:713-716
          | .fn _ _ retTy _ =>
            if kind = .call then .ok retTy else fallback
          | .keyword kw _ =>
            (match kw with
              -- expr.rs:718-723
              | .any => .ok (Ty.any span)
              -- expr.rs:725-732
              | .number =>
                (match builtin_get_type env "Number" with
                  | some ty => .ok ty
                  | none =>
                    .error (.expectFailed "builtin type Number should exist"))
              -- expr.rs:734-741
              | .string =>
                (match builtin_get_type env "String" with
                  | some ty => .ok ty
                  | none =>
                    .error (.expectFailed "builtin type String should exist"))
              | _ => fallback)
          | _ => fallback)
      | _ =>
        -- expr.rs:774-779
        match evalReq env fuel (.typeOfReq callee) with
        | .error err => .error err
        | .ok ty => evalReq env fuel (.extractReq span ty kind args typeArgs)

    -- `extract`, expr.rs:782-937
    | .extractReq span ty kind args typeArgs =>
      let retErr : Except Error Ty :=
        match kind with
        | .call => .error (.noCallSignature span ty)
        | .new => .error (.noNewSignature span ty)
      match ty with
      -- expr.rs:871-874
      | .keyword .any _ => .ok (Ty.any span)
      -- expr.rs:876-889
      | .fn params typeParams retTy tySpan =>
        if kind = .call then
          try_instantiate span tySpan retTy params typeParams args typeArgs
        else retErr
      -- expr.rs:891-904
      | .ctorFn params typeParams retTy tySpan =>
        if kind = .new then
          try_instantiate span tySpan retTy params typeParams args typeArgs
        else retErr
      -- expr.rs:906-916
      | .union types _ =>
        evalReq env fuel (.extractUnionReq span ty types kind args typeArgs [])
      -- expr.rs:935
      | _ => retErr

    -- the loop of `extract`'s union arm, expr.rs:907-915
    | .extractUnionReq span _wholeTy tys kind args typeArgs errs =>
      match tys with
      | [] => .error (.unionError span errs)
      | t :: rest =>
        match evalReq env fuel (.extractReq span t kind args typeArgs) with
        | .ok ty => .ok ty
        | .error err =>
          evalReq env fuel
            (.extractUnionReq span _wholeTy rest kind args typeArgs
              (errs ++ [err]))

/-- `Analyzer::type_of` (expr.rs:14). -/
def type_of (env : Env) (fuel : Nat) (e : Expr) : Except Error Ty :=
  evalReq env fuel (.typeOfReq e)

/-- `Analyzer::access_property` (expr.rs:359). -/
def access_property (env : Env) (fuel : Nat) (span : Span) (obj : Ty)
    (prop : Expr) (computed : Bool) : Except Error Ty :=
  evalReq env fuel (.accessPropertyReq span obj prop computed)

/-- `Analyzer::extract_call_new_expr_member` (expr.rs:612). -/
def extract_call_new_expr_member (env : Env) (fuel : Nat) (callee : Expr)
    (kind : ExtractKind) (args : List (Bool × Expr))
    (typeArgs : Option TsTypeParamInstantiation) : Except Error Ty :=
  evalReq env fuel (.extractCallNewExprMemberReq callee kind args typeArgs)

/-- `Analyzer::extract` (expr.rs:782). -/
def extract (env : Env) (fuel : Nat) (span : Span) (ty : Ty)
    (kind : ExtractKind) (args : List (Bool × Expr))
    (typeArgs : Option TsTypeParamInstantiation) : Except Error Ty :=
  evalReq env fuel (.extractReq span ty kind args typeArgs)

/-- Member keys, `swc_ecma_ast::PropName` (numeric keys are `f64` in the
source and are compared through their decimal rendering; the claims only
exercise identifier keys). -/
inductive PropName where
  | ident (sym : String) (span : Span)
  | str (value : String) (span : Span)
  | num (value : Nat) (span : Span)
  | computed (span : Span)
deriving DecidableEq, Repr

/-- `PropName::span()`. -/
def PropName.spanOf : PropName → Span
  | .ident _ s => s
  | .str _ s => s
  | .num _ s => s
  | .computed s => s

/-- The `check!` half of `is_prop_name_eq` (class.rs:52-71): `none` means
the macro fell through (only a numeric left key does). -/
def prop_name_check (l r : PropName) : Option Bool :=
  match l with
  | .ident sym _ | .str sym _ =>
    some
      (match r with
        | .ident rSym _ | .str rSym _ => sym = rSym
        | .num n _ => sym = toString n
        | .computed _ => false)
  | .computed _ => some false
  | .num _ _ => none

/-- `is_prop_name_eq` (class.rs:51-77): try `check!(l, r)`, then
`check!(r, l)`, else `false`. -/
def is_prop_name_eq (l r : PropName) : Bool :=
  match prop_name_check l r with
  | some b => b
  | none =>
    match prop_name_check r l with
    | some b => b
    | none => false

/-- A class member as `validate_class_members` sees it: constructors and
methods carry their key and whether a body is present; all other members
are ignored by the grouping pass (class.rs:143-147). -/
inductive ClassMember where
  | ctor (key : PropName) (hasBody : Bool)
  | method (key : PropName) (hasBody : Bool)
  | other
deriving DecidableEq, Repr

/-- The mutable state of the `validate_class_members` loop: collected
errors, the spans of the pending bodyless signatures, and their name. -/
structure VcmState where
  errors : List Error
  spans : List Span
  name : Option PropName

/-- The `check!` macro body of `validate_class_members`
(class.rs:91-141), acting on one keyed member. -/
def vcm_check (declare : Bool) (st : VcmState) (key : PropName)
    (hasBody : Bool) : VcmState :=
  if declare then st
  else
    match key with
    | .computed _ => st
    | _ =>
      if !hasBody then
        -- class.rs:104-112
        let st :=
          match st.name with
          | some n =>
            if !is_prop_name_eq n key then
              { st with errors := st.errors ++ st.spans.map Error.ts2391,
                        spans := [] }
            else st
          | none => st
        { st with name := some key, spans := st.spans ++ [key.spanOf] }
      else
        -- class.rs:113-139
        match st.name with
        | none => { st with spans := [], name := none }
        | some n =>
          if is_prop_name_eq n key then { st with spans := [], name := none }
          else
            let ctorName := PropName.ident "constructor" dummySpan
            if is_prop_name_eq n ctorName then
              { errors := st.errors ++ st.spans.map Error.ts2391,
                spans := [], name := none }
            else if is_prop_name_eq key ctorName then
              { errors := st.errors ++ st.spans.map Error.ts2389,
                spans := [], name := none }
            else
              { errors := st.errors ++ [Error.ts2389 key.spanOf],
                spans := [], name := none }

/-- Dispatch of one class member inside the loop (class.rs:143-147). -/
def vcm_member (declare : Bool) (st : VcmState) (m : ClassMember) : VcmState :=
  match m with
  | .ctor key hasBody => vcm_check declare st key hasBody
  | .method key hasBody => vcm_check declare st key hasBody
  | .other => st

/-- `Analyzer::validate_class_members` (class.rs:50-158): run the grouping
loop over the body and, outside `declare` classes, flush the trailing
bodyless signatures as TS2391. -/
def validate_class_members (body : List ClassMember) (declare : Bool) :
    List Error :=
  let st := body.foldl (vcm_member declare) ⟨[], [], none⟩
  if !declare then st.errors ++ st.spans.map Error.ts2391 else st.errors

/-- The `is_symbol_access` test of `validate_computed_prop_key`
(class.rs:162-172): the key is a member expression whose object is the
identifier `Symbol`. -/
def is_symbol_access (key : Expr) : Bool :=
  match key with
  | .member (.ident "Symbol" _) _ _ _ => true
  | _ => false

/-- `Analyzer::validate_computed_prop_key` (class.rs:160-199), returned as
the list of errors the surrounding `analyze!` block records: a `TS2585`
typing failure is re-raised as such; any other typing failure is collected
and the key treated as `any`; a key whose (normalized) type is not a
literal and that is not a symbol access adds TS1166; a non-empty
collection is wrapped in `Error::Errors`. -/
def validate_computed_prop_key (env : Env) (fuel : Nat) (span : Span)
    (key : Expr) : List Error :=
  let symbolAccess := is_symbol_access key
  match type_of env fuel key with
  | .error (.ts2585 s) => [.ts2585 s]
  | .error err =>
    -- the key's type is substituted by `Type::any(span)`, which is not a
    -- literal, so the TS1166 check below fails unless exempted
    let errors := [err] ++ (if symbolAccess then [] else [Error.ts1166 span])
    [.errorsGroup span errors]
  | .ok ty =>
    let errors : List Error :=
      match ty.normalize with
      | .lit _ _ => []
      | _ => if symbolAccess then [] else [.ts1166 span]
    if errors.isEmpty then [] else [.errorsGroup span errors]

/-- Parameter patterns, `swc_ecma_ast::Pat`, as the parameter validators
inspect them: identifier patterns with their `optional` flag, or any other
pattern. -/
inductive Pat where
  | identPat (sym : String) (optional : Bool) (span : Span)
  | otherPat (span : Span)
deriving DecidableEq, Repr

/-- `Pat::span()`. -/
def Pat.spanOf : Pat → Span
  | .identPat _ _ s => s
  | .otherPat s => s

/-- The parameter-validation loop of `Fold<ClassMethod>::fold`
(class.rs:361-379): every parameter seen while `has_optional` is set
raises TS1016 at its span; an identifier parameter marked optional sets
the flag. -/
def validate_params_fn : Bool → List Pat → List Error
  | _, [] => []
  | hasOptional, p :: rest =>
    (if hasOptional then [Error.ts1016 p.spanOf] else []) ++
      validate_params_fn
        (match p with
          | .identPat _ true _ => true
          | _ => hasOptional)
        rest

/-- Constructor parameters, `PatOrTsParamProp`. -/
inductive PatOrTsParamProp where
  | pat (p : Pat)
  | tsParamProp (span : Span)
deriving DecidableEq, Repr

/-- `PatOrTsParamProp::span()`. -/
def PatOrTsParamProp.spanOf : PatOrTsParamProp → Span
  | .pat p => p.spanOf
  | .tsParamProp s => s

/-- The parameter-validation loop of `Fold<Constructor>::fold`
(class.rs:466-484): identical to the method loop, the optional flag being
read only from plain identifier patterns. -/
def validate_params_constructor : Bool → List PatOrTsParamProp → List Error
  | _, [] => []
  | hasOptional, p :: rest =>
    (if hasOptional then [Error.ts1016 p.spanOf] else []) ++
      validate_params_constructor
        (match p with
          | .pat (.identPat _ true _) => true
          | _ => hasOptional)
        rest

/-- The analyzer state that `handle_pending_exports` reads and writes:
the deferred exports, the module scope's type table, the export table and
the module error list. -/
structure ExportState where
  pendingExports : List ((String × Span) × Expr)
  scopeTypes : List (String × Ty)
  exportTypes : List (String × Ty)
  errors : List Error

/-- `HashMap::remove`: look the key up and take its entry out of the
table, or `none`. -/
def remove_first : List (String × Ty) → String → Option (Ty × List (String × Ty))
  | [], _ => none
  | (k, v) :: rest, sym =>
    if k = sym then some (v, rest)
    else (remove_first rest sym).map fun p => (p.1, (k, v) :: p.2)

/-- The loop of `handle_pending_exports` (export.rs:27-40): resolve each
recorded export against the module scope; a hit is moved into the export
table; on a miss the function `return`s, abandoning the rest of the
list. -/
def handle_pending_exports_go :
    List ((String × Span) × Expr) → ExportState → ExportState
  | [], st => st
  | ((sym, _), _) :: rest, st =>
    match remove_first st.scopeTypes sym with
    | some (ty, remaining) =>
      handle_pending_exports_go rest
        { st with scopeTypes := remaining,
                  exportTypes := st.exportTypes ++ [(sym, ty)] }
    | none => st

/-- `Analyzer::handle_pending_exports` (export.rs:20-43). -/
def handle_pending_exports (st : ExportState) : ExportState :=
  if st.pendingExports.isEmpty then st
  else
    let pending := st.pendingExports
    handle_pending_exports_go pending { st with pendingExports := [] }

/-! Auxiliary notions used to state the claims, and the concrete inputs of
the counterexamples and witnesses. -/

/-- Whether a formal parameter is an optional identifier pattern. -/
def TsFnParam.is_optional : TsFnParam → Bool
  | .ident _ optional _ => optional
  | _ => false

/-- The number of formal parameters that are not optional (the `min` of the
instantiation contract). -/
def required_param_count (params : List TsFnParam) : Nat :=
  params.countP fun p => ! p.is_optional

/-- Whether a parameter pattern is an optional identifier. -/
def Pat.is_optional : Pat → Bool
  | .identPat _ optional _ => optional
  | _ => false

/-- The parameters strictly after the first optional identifier
parameter. -/
def after_first_optional_fn : List Pat → List Pat
  | [] => []
  | p :: rest =>
    match p with
    | .identPat _ true _ => rest
    | _ => after_first_optional_fn rest

/-- Same, over constructor parameters. -/
def after_first_optional_ctor : List PatOrTsParamProp → List PatOrTsParamProp
  | [] => []
  | p :: rest =>
    match p with
    | .pat (.identPat _ true _) => rest
    | _ => after_first_optional_ctor rest

/-- Claim C7 as stated: a TS1016 at each *required* parameter that follows
an optional one (an optional parameter following an optional one is not a
violation). -/
def claim_c7_errors : Bool → List Pat → List Error
  | _, [] => []
  | seenOptional, p :: rest =>
    (if seenOptional && !p.is_optional then [Error.ts1016 p.spanOf] else []) ++
      claim_c7_errors (seenOptional || p.is_optional) rest

/-- Claim C2 as stated: identifier resolution consults narrowing facts and
variable bindings (the variable-type map), then type bindings, then
resolved imports, then builtins; the first source that binds the name
wins, otherwise undefined-symbol. -/
def claim_c2_ident_lookup (env : Env) (sym : String) (ispan : Span) :
    Except Error Ty :=
  match find_var_type env sym with
  | some ty => .ok ty
  | none =>
  match find_type env sym with
  | some ty => .ok ty
  | none =>
  match env.resolvedImports.lookup sym with
  | some ty => .ok ty
  | none =>
  match builtin_get_var env sym with
  | some ty => .ok ty
  | none => .error (.undefinedSymbol ispan)

/-- Whether a type is a literal type. -/
def Ty.isLit : Ty → Bool
  | .lit _ _ => true
  | _ => false

/-- Whether a member key is computed. -/
def PropName.isComputedProp : PropName → Bool
  | .computed _ => true
  | _ => false

/-- The empty environment. -/
def emptyEnv : Env := ⟨[], [], [], [], [], []⟩

/-- `enum E { A }` (member `A`, no initializer). -/
def enumE : TsEnumDecl := ⟨"E", ⟨10, 20⟩, [⟨"A", ⟨12, 13⟩, none⟩]⟩

/-- Environment for C1: the enum `E` is registered as a type, and the
builtin `Number`/`String` wrapper types are available. -/
def envC1 : Env :=
  { resolvedImports := []
    typeBindings := [("E", Ty.enumDecl enumE)]
    varTypeBindings := []
    varNames := []
    builtinVars := []
    builtinTypes :=
      [("Number", Ty.keyword .object ⟨1, 2⟩),
       ("String", Ty.keyword .object ⟨3, 4⟩)] }

/-- The expression `E.A`. -/
def exprEA : Expr :=
  .member (.ident "E" ⟨30, 31⟩) (.ident "A" ⟨32, 33⟩) false ⟨30, 33⟩

/-- The expression `E.A.toString()`. -/
def exprEAtoString : Expr :=
  .call (.member exprEA (.ident "toString" ⟨34, 42⟩) false ⟨30, 42⟩) [] none
    ⟨30, 44⟩

/-- `enum E { A, B = "s" }`: `A` has no initializer, `B` is initialized to
the string literal `"s"`. -/
def enumEB : TsEnumDecl :=
  ⟨"E", ⟨60, 75⟩, [⟨"A", ⟨62, 63⟩, none⟩, ⟨"B", ⟨64, 65⟩, some (.litStr "s" ⟨66, 69⟩)⟩]⟩

/-- Environment for the second C1 conjunct: `enum E { A, B = "s" }`. -/
def envC1B : Env :=
  { resolvedImports := []
    typeBindings := [("E", Ty.enumDecl enumEB)]
    varTypeBindings := []
    varNames := []
    builtinVars := []
    builtinTypes := [] }

/-- Environment for C2: the name `x` is bound both as a resolved import
(to `number`) and as a variable (to `string`). -/
def envC2 : Env :=
  { resolvedImports := [("x", Ty.keyword .number ⟨1, 1⟩)]
    typeBindings := []
    varTypeBindings := [("x", Ty.keyword .string ⟨2, 2⟩)]
    varNames := ["x"]
    builtinVars := []
    builtinTypes := [] }

/-- Class body for C3: `class C { constructor(); foo() {} }` — one bodyless
constructor signature followed by a body-bearing method of another name. -/
def c3Body : List ClassMember :=
  [.ctor (.ident "constructor" ⟨100, 111⟩) false,
   .method (.ident "foo" ⟨120, 123⟩) true]

/-- Class body for C4: `class C { foo(); foo(x); foo(x) {} }`. -/
def c4BodyImpl : List ClassMember :=
  [.method (.ident "foo" ⟨200, 203⟩) false,
   .method (.ident "foo" ⟨210, 213⟩) false,
   .method (.ident "foo" ⟨220, 223⟩) true]

/-- Class body for C4 with the implementation body removed: every `foo`
signature is bodyless. -/
def c4BodyNone : List ClassMember :=
  [.method (.ident "foo" ⟨200, 203⟩) false,
   .method (.ident "foo" ⟨210, 213⟩) false,
   .method (.ident "foo" ⟨220, 223⟩) false]

/-- Export state for C6: two deferred exports `a` then `b`; the final
module scope binds only `b`. -/
def stC6 : ExportState :=
  { pendingExports :=
      [(("a", ⟨300, 301⟩), .litNum 1 ⟨300, 301⟩),
       (("b", ⟨310, 311⟩), .litNum 2 ⟨310, 311⟩)]
    scopeTypes := [("b", Ty.keyword .number ⟨5, 6⟩)]
    exportTypes := []
    errors := [] }

/-- Parameters for C7's counterexample: `(a?: number, b?: number)` — both
optional, so the claim predicts no violation. -/
def c7Params : List Pat :=
  [.identPat "a" true ⟨400, 401⟩, .identPat "b" true ⟨410, 411⟩]

/-- Environment for C9: `f` is imported with a function type returning
`string`. -/
def envC9 : Env :=
  { resolvedImports :=
      [("f", Ty.fn [] none (Ty.keyword .string ⟨50, 51⟩) ⟨52, 53⟩)]
    typeBindings := []
    varTypeBindings := []
    varNames := []
    builtinVars := []
    builtinTypes := [] }

/-- The call `f.p()` for C9. -/
def exprC9Call : Expr :=
  .call (.member (.ident "f" ⟨60, 61⟩) (.ident "p" ⟨62, 63⟩) false ⟨60, 63⟩)
    [] none ⟨60, 65⟩

/-! Helper lemmas shared by the claim theorems. -/

/-- The `min` computed by `try_instantiate` is the number of non-optional
formal parameters. -/
theorem try_instantiate_min_eq (params : List TsFnParam) :
    (params.filter fun p =>
      match p with
      | TsFnParam.ident _ true _ => false
      | _ => true).length = required_param_count params := by
  unfold required_param_count
  induction params with
  | nil => rfl
  | cons p rest ih =>
    cases p with
    | ident s o sp =>
      cases o <;>
        simp [List.filter_cons, List.countP_cons, TsFnParam.is_optional, ih]
    | rest sp =>
      simp [List.filter_cons, List.countP_cons, TsFnParam.is_optional, ih]
    | array sp =>
      simp [List.filter_cons, List.countP_cons, TsFnParam.is_optional, ih]
    | object sp =>
      simp [List.filter_cons, List.countP_cons, TsFnParam.is_optional, ih]

/-- Once the optional flag is set, every remaining parameter errs. -/
theorem validate_params_fn_true (l : List Pat) :
    validate_params_fn true l = l.map fun p => Error.ts1016 p.spanOf := by
  induction l with
  | nil => rfl
  | cons p rest ih =>
    cases p with
    | identPat s o sp => cases o <;> simp [validate_params_fn, ih]
    | otherPat sp => simp [validate_params_fn, ih]

/-- Once the optional flag is set, every remaining constructor parameter
errs. -/
theorem validate_params_constructor_true (l : List PatOrTsParamProp) :
    validate_params_constructor true l =
      l.map fun p => Error.ts1016 p.spanOf := by
  induction l with
  | nil => rfl
  | cons p rest ih =>
    cases p with
    | pat q =>
      cases q with
      | identPat s o sp => cases o <;> simp [validate_params_constructor, ih]
      | otherPat sp => simp [validate_params_constructor, ih]
    | tsParamProp sp => simp [validate_params_constructor, ih]

/-- A key absent from the table cannot be removed from it. -/
theorem remove_first_eq_none {m : List (String × Ty)} {sym : String}
    (h : m.lookup sym = none) : remove_first m sym = none := by
  induction m with
  | nil => rfl
  | cons kv rest ih =>
    obtain ⟨k, v⟩ := kv
    by_cases hk : k = sym
    · subst hk
      simp [List.lookup] at h
    · have hne : sym ≠ k := fun hh => hk hh.symm
      have h' : rest.lookup sym = none := by
        rw [List.lookup] at h
        rwa [beq_false_of_ne hne] at h
      simp [remove_first, hk, ih h']

/-! The claim theorems. -/

/-- C3 (counterexample): for `class C { constructor(); foo() {} }` the
pending name is `constructor` and the following body bears another name;
the claim predicts TS2389 (constructor implementation missing) for the
pending signature, but `validate_class_members` raises TS2391 at the
constructor signature and no TS2389 at all. -/
theorem c3_counterexample :
    validate_class_members c3Body false = [Error.ts2391 ⟨100, 111⟩]
    ∧ ∀ s, Error.ts2389 s ∉ validate_class_members c3Body false := by
  refine ⟨rfl, ?_⟩
  intro s h
  rw [show validate_class_members c3Body false = [Error.ts2391 ⟨100, 111⟩]
    from rfl] at h
  exact Error.noConfusion (List.mem_singleton.mp h)

/-- C3 (amended): when a body-bearing, non-computed member is reached whose
name differs from the pending signatures' name, `validate_class_members`
flushes each pending signature as TS2391 if the pending name was
`constructor`; otherwise, if the body-bearing member is named
`constructor`, it flushes each pending signature as TS2389; otherwise it
raises a single TS2389 at the body-bearing member's key span and the
pending signatures raise nothing.  The pending state is cleared in every
case. -/
theorem c3_amended (st : VcmState) (key : PropName) (n : PropName)
    (hn : st.name = some n) (hnc : key.isComputedProp = false)
    (hne : is_prop_name_eq n key = false) :
    vcm_check false st key true =
      { errors := st.errors ++
          (if is_prop_name_eq n (PropName.ident "constructor" dummySpan) then
            st.spans.map Error.ts2391
          else if is_prop_name_eq key (PropName.ident "constructor" dummySpan)
              then
            st.spans.map Error.ts2389
          else [Error.ts2389 key.spanOf]),
        spans := [], name := none } := by
  cases key with
  | computed s => simp [PropName.isComputedProp] at hnc
  | ident s sp =>
    simp [vcm_check, hn, hne]
    split_ifs <;> rfl
  | str v sp =>
    simp [vcm_check, hn, hne]
    split_ifs <;> rfl
  | num v sp =>
    simp [vcm_check, hn, hne]
    split_ifs <;> rfl

/-- C3 (witness): the amended rule at the concrete input of the
counterexample — pending `constructor`, body-bearing `foo`. -/
theorem c3_amended_witness :
    vcm_check false ⟨[], [⟨100, 111⟩], some (.ident "constructor" ⟨100, 111⟩)⟩
        (.ident "foo" ⟨120, 123⟩) true
      = ⟨[Error.ts2391 ⟨100, 111⟩], [], none⟩ :=
  (c3_amended ⟨[], [⟨100, 111⟩], some (.ident "constructor" ⟨100, 111⟩)⟩
    (.ident "foo" ⟨120, 123⟩) (.ident "constructor" ⟨100, 111⟩) rfl rfl
    rfl).trans rfl

/-- C4 (counterexample): with the implementation body removed every `foo`
signature is bodyless and `validate_class_members` raises three TS2391
errors — one per signature — not exactly one at the last signature. -/
theorem c4_counterexample :
    validate_class_members c4BodyNone false =
      [Error.ts2391 ⟨200, 203⟩, Error.ts2391 ⟨210, 213⟩,
       Error.ts2391 ⟨220, 223⟩]
    ∧ (validate_class_members c4BodyNone false).length = 3
    ∧ (3 : Nat) ≠ 1 :=
  ⟨rfl, rfl, by decide⟩

/-- C4 (amended): `class C { foo(); foo(x); foo(x) {} }` raises no errors;
removing the body raises one TS2391 per bodyless signature (three in
total), at each signature's key span. -/
theorem c4_amended :
    validate_class_members c4BodyImpl false = []
    ∧ validate_class_members c4BodyNone false =
        [Error.ts2391 ⟨200, 203⟩, Error.ts2391 ⟨210, 213⟩,
         Error.ts2391 ⟨220, 223⟩] :=
  ⟨rfl, rfl⟩

/-- C5: `try_instantiate` returns a wrong-parameter-count error exactly
when the number of actual arguments lies outside `[min, max]`, `min`
being the number of non-optional formals and `max` the number of all
formals; when the arity is accepted the formal return type is returned
unchanged; and the result never depends on the declared type parameters
or the supplied type arguments (both are ignored). -/
theorem c5_try_instantiate_contract :
    ∀ (span calleeSpan : Span) (retType : Ty) (paramDecls : List TsFnParam)
      (tyParamsDecl : Option TsTypeParamDecl) (args : List (Bool × Expr))
      (typeArgs : Option TsTypeParamInstantiation),
      try_instantiate span calleeSpan retType paramDecls tyParamsDecl args
          typeArgs =
        if required_param_count paramDecls ≤ args.length ∧
            args.length ≤ paramDecls.length then
          .ok retType
        else
          .error (.wrongParams span calleeSpan
            (required_param_count paramDecls) paramDecls.length
            args.length) := by
  intro span calleeSpan retType paramDecls tyParamsDecl args typeArgs
  simp only [try_instantiate, try_instantiate_min_eq]

/-- C6 (counterexample): two deferred exports `a` then `b`, with only `b`
bound in the final scope: `handle_pending_exports` stops at the missing
`a` and exports nothing, although `b` was resolvable — the remaining
deferred exports are not resolved. -/
theorem c6_counterexample :
    handle_pending_exports stC6 =
      { pendingExports := [],
        scopeTypes := [("b", Ty.keyword .number ⟨5, 6⟩)],
        exportTypes := [], errors := [] }
    ∧ stC6.scopeTypes.lookup "b" = some (Ty.keyword .number ⟨5, 6⟩)
    ∧ (handle_pending_exports stC6).exportTypes = [] :=
  ⟨rfl, rfl, rfl⟩

/-- C6 (amended): when the first deferred export's name is absent from the
final module scope, resolution records no error and leaves the export
table and scope unchanged, but it stops there — the remaining deferred
exports are dropped unresolved, not resolved. -/
theorem c6_amended (st : ExportState) (sym : String) (sp : Span) (e : Expr)
    (rest : List ((String × Span) × Expr))
    (hp : st.pendingExports = ((sym, sp), e) :: rest)
    (hl : st.scopeTypes.lookup sym = none) :
    handle_pending_exports st = { st with pendingExports := [] } := by
  unfold handle_pending_exports
  rw [hp]
  simp only [List.isEmpty_cons, Bool.false_eq_true, if_false]
  rw [handle_pending_exports_go]
  simp [remove_first_eq_none hl]

/-- C6 (witness): the amended behaviour at the counterexample's input. -/
theorem c6_amended_witness :
    handle_pending_exports stC6 = { stC6 with pendingExports := [] } :=
  c6_amended stC6 "a" ⟨300, 301⟩ (.litNum 1 ⟨300, 301⟩)
    [(("b", ⟨310, 311⟩), .litNum 2 ⟨310, 311⟩)] rfl rfl

/-- C7 (counterexample): for `(a?: number, b?: number)` there is no
required-after-optional violation, so the claim predicts no error, yet
the validator raises TS1016 at `b` because it flags every parameter after
the first optional one. -/
theorem c7_counterexample :
    validate_params_fn false c7Params = [Error.ts1016 ⟨410, 411⟩]
    ∧ claim_c7_errors false c7Params = []
    ∧ ([Error.ts1016 ⟨410, 411⟩] : List Error) ≠ [] :=
  ⟨rfl, rfl, by simp⟩

/-- C7 (amended): in both the class-method and the constructor parameter
validators, every parameter strictly after the first optional identifier
parameter raises TS1016 at its own span, whether or not it is itself
optional; in particular `function f(a?: number, b: number)` yields
exactly one TS1016 at `b`'s span. -/
theorem c7_amended :
    (∀ params : List Pat,
      validate_params_fn false params =
        (after_first_optional_fn params).map fun p => Error.ts1016 p.spanOf)
    ∧ (∀ params : List PatOrTsParamProp,
        validate_params_constructor false params =
          (after_first_optional_ctor params).map fun p =>
            Error.ts1016 p.spanOf)
    ∧ ∀ (sa sb : Span),
        validate_params_fn false
          [.identPat "a" true sa, .identPat "b" false sb] =
          [Error.ts1016 sb] := by
  refine ⟨?_, ?_, ?_⟩
  · intro params
    induction params with
    | nil => rfl
    | cons p rest ih =>
      cases p with
      | identPat s o sp =>
        cases o <;>
          simp [validate_params_fn, after_first_optional_fn, ih,
            validate_params_fn_true]
      | otherPat sp =>
        simp [validate_params_fn, after_first_optional_fn, ih]
  · intro params
    induction params with
    | nil => rfl
    | cons p rest ih =>
      cases p with
      | pat q =>
        cases q with
        | identPat s o sp =>
          cases o <;>
            simp [validate_params_constructor, after_first_optional_ctor, ih,
              validate_params_constructor_true]
        | otherPat sp =>
          simp [validate_params_constructor, after_first_optional_ctor, ih]
      | tsParamProp sp =>
        simp [validate_params_constructor, after_first_optional_ctor, ih]
  · intro sa sb
    rfl

/-- C1 (code bug): for `enum E { A }` the call `E.A.toString()` does not
type as `string`: building the no-call-signature diagnostic re-types the
callee, which re-projects the enum variant through the ordinal `0` and
then aborts with `unimplemented!` on the resulting `number` keyword (the
panic payload carries that object type).  Moreover the re-projection of
`access_property` always goes through the *first* enum member: for
`enum E { A, B = "s" }`, accessing a property of `E.B` projects through
`A`'s ordinal `0` (a number), not through `B`'s string initializer. -/
theorem c1_enum_projection_bug :
    type_of envC1 10 exprEAtoString =
      .error (.unimplementedAccess (Ty.keyword .number ⟨30, 33⟩))
    ∧ (∀ s, type_of envC1 10 exprEAtoString ≠ .ok (Ty.keyword .string s))
    ∧ access_property envC1B 10 ⟨70, 75⟩ (Ty.enumVariant "E" "B" ⟨70, 75⟩)
        (.ident "x" ⟨76, 77⟩) false =
      .error (.unimplementedAccess (Ty.keyword .number ⟨70, 75⟩))
    ∧ (enumEB.members.map fun m => (m.id, m.init)) =
        [("A", none), ("B", some (.litStr "s" ⟨66, 69⟩))] := by
  refine ⟨rfl, ?_, rfl, rfl⟩
  intro s h
  rw [show type_of envC1 10 exprEAtoString =
      .error (.unimplementedAccess (Ty.keyword .number ⟨30, 33⟩)) from rfl]
    at h
  exact Except.noConfusion h

/-- C2 (counterexample): the name `x` is bound both by the resolved
imports (to `number`) and by the variable bindings (to `string`).  The
claimed order consults variables before imports and yields `string`;
`type_of` consults the imports first and yields `number`. -/
theorem c2_counterexample :
    type_of envC2 1 (.ident "x" ⟨7, 8⟩) = .ok (Ty.keyword .number ⟨1, 1⟩)
    ∧ claim_c2_ident_lookup envC2 "x" ⟨7, 8⟩ =
        .ok (Ty.keyword .string ⟨2, 2⟩)
    ∧ (Except.ok (Ty.keyword .number ⟨1, 1⟩) : Except Error Ty) ≠
        .ok (Ty.keyword .string ⟨2, 2⟩) := by
  refine ⟨rfl, rfl, ?_⟩
  intro h
  injection h with h'
  injection h' with h1 h2
  exact KeywordKind.noConfusion h1

/-- C2 (amended): for an identifier other than the special-cased
`undefined` and `require`, `type_of` consults, in this order: resolved
imports, then type bindings, then the (narrowed) variable types, then
mere variable existence (yielding `any`), then builtins; the first source
that binds the name determines the type, and if none binds it, the result
is an undefined-symbol error. -/
theorem c2_amended :
    ∀ (env : Env) (sym : String) (ispan : Span) (fuel : Nat),
      sym ≠ "undefined" → sym ≠ "require" →
      type_of env (fuel + 1) (.ident sym ispan) =
        match
          ([env.resolvedImports.lookup sym, find_type env sym,
            find_var_type env sym,
            (if find_var env sym then some (Ty.any ispan) else none),
            builtin_get_var env sym] : List (Option Ty)).findSome? id with
        | some ty => .ok ty
        | none => .error (.undefinedSymbol ispan) := by
  intro env sym ispan fuel h1 h2
  show evalReq env (fuel + 1) (.typeOfReq (.ident sym ispan)) = _
  rw [evalReq]
  simp only [Expr.spanOf]
  rw [if_neg h1, if_neg h2]
  cases hr : env.resolvedImports.lookup sym with
  | some ty => simp [List.findSome?_cons, hr]
  | none =>
    cases ht : find_type env sym with
    | some ty => simp [List.findSome?_cons, hr, ht]
    | none =>
      cases hv : find_var_type env sym with
      | some ty => simp [List.findSome?_cons, hr, ht, hv]
      | none =>
        cases hb : find_var env sym with
        | true => simp [List.findSome?_cons, hr, ht, hv, hb]
        | false =>
          cases hbv : builtin_get_var env sym with
          | some ty => simp [List.findSome?_cons, hr, ht, hv, hb, hbv]
          | none =>
            simp [List.findSome?_cons, List.findSome?_nil, hr, ht, hv, hb,
              hbv]

/-- C2 (witness): the amended order at the counterexample environment —
the import wins over the variable binding. -/
theorem c2_amended_witness :
    ("x" : String) ≠ "undefined" ∧ ("x" : String) ≠ "require"
    ∧ type_of envC2 1 (.ident "x" ⟨7, 8⟩) = .ok (Ty.keyword .number ⟨1, 1⟩) :=
  ⟨by decide, by decide,
    (c2_amended envC2 "x" ⟨7, 8⟩ 0 (by decide) (by decide)).trans rfl⟩

/-- C8 (counterexample): a computed key of type `any` (here a `yield`
expression, which types as `any`) is not exempt: the validator raises
TS1166, while the claim says `any` succeeds. -/
theorem c8_counterexample :
    validate_computed_prop_key emptyEnv 1 ⟨500, 510⟩ (.yieldExpr ⟨505, 506⟩) =
      [Error.errorsGroup ⟨500, 510⟩ [Error.ts1166 ⟨500, 510⟩]]
    ∧ type_of emptyEnv 1 (.yieldExpr ⟨505, 506⟩) = .ok (Ty.any ⟨505, 506⟩)
    ∧ validate_computed_prop_key emptyEnv 1 ⟨500, 510⟩
        (.yieldExpr ⟨505, 506⟩) ≠ [] := by
  refine ⟨rfl, rfl, ?_⟩
  intro h
  rw [show validate_computed_prop_key emptyEnv 1 ⟨500, 510⟩
      (.yieldExpr ⟨505, 506⟩) =
      [Error.errorsGroup ⟨500, 510⟩ [Error.ts1166 ⟨500, 510⟩]] from rfl] at h
  simp at h

/-- C8 (amended): computed-key validation succeeds exactly when the key
types without error to a literal type, or the key is a syntactic symbol
access (`Symbol.X`) that types without error; in every other case —
including a key of type `any` — errors are raised (TS1166, grouped with
any typing error). -/
theorem c8_amended :
    ∀ (env : Env) (fuel : Nat) (span : Span) (key : Expr),
      validate_computed_prop_key env fuel span key = [] ↔
        ∃ ty, type_of env fuel key = .ok ty ∧
          (ty.normalize.isLit || is_symbol_access key) = true := by
  intro env fuel span key
  unfold validate_computed_prop_key
  cases h : type_of env fuel key with
  | error e =>
    cases e <;> simp [h]
  | ok ty =>
    cases hs : is_symbol_access key with
    | true => cases ty <;> simp [h, hs, Ty.normalize, Ty.isLit]
    | false => cases ty <;> simp [h, hs, Ty.normalize, Ty.isLit]

/-- C9: a call whose callee is a member expression `o.p` with `o` of a
function type returns that function's declared return type, for every
property name `p`, every `computed` flag, and every argument and
type-argument list — both at the level of
`extract_call_new_expr_member` and through `type_of` on the whole call
expression. -/
theorem c9_member_call_function_obj :
    ∀ (env : Env) (fuel : Nat) (obj prop : Expr) (computed : Bool)
      (mspan cspan : Span) (args : List (Bool × Expr))
      (typeArgs : Option TsTypeParamInstantiation)
      (params : List TsFnParam) (tps : Option TsTypeParamDecl) (ret : Ty)
      (fspan : Span),
      type_of env fuel obj = .ok (Ty.fn params tps ret fspan) →
      extract_call_new_expr_member env (fuel + 1)
          (.member obj prop computed mspan) .call args typeArgs = .ok ret
      ∧ type_of env (fuel + 2)
          (.call (.member obj prop computed mspan) args typeArgs cspan) =
        .ok ret := by
  intro env fuel obj prop computed mspan cspan args typeArgs params tps ret
    fspan h
  have h' : evalReq env fuel (.typeOfReq obj) =
      .ok (Ty.fn params tps ret fspan) := h
  have h1 : extract_call_new_expr_member env (fuel + 1)
      (.member obj prop computed mspan) .call args typeArgs = .ok ret := by
    show evalReq env (fuel + 1)
      (.extractCallNewExprMemberReq (.member obj prop computed mspan) .call
        args typeArgs) = .ok ret
    rw [evalReq]
    simp [h', generalize_lit]
  exact ⟨h1, h1⟩

/-- C9 (witness): calling `f.p()` where `f` is imported at a function type
returning `string` yields `string`, with no arguments supplied. -/
theorem c9_member_call_function_obj_witness :
    type_of envC9 1 (.ident "f" ⟨60, 61⟩) =
      .ok (Ty.fn [] none (Ty.keyword .string ⟨50, 51⟩) ⟨52, 53⟩)
    ∧ type_of envC9 3 exprC9Call = .ok (Ty.keyword .string ⟨50, 51⟩) :=
  ⟨rfl,
    (c9_member_call_function_obj envC9 1 (.ident "f" ⟨60, 61⟩)
      (.ident "p" ⟨62, 63⟩) false ⟨60, 63⟩ ⟨60, 65⟩ [] none [] none
      (Ty.keyword .string ⟨50, 51⟩) ⟨52, 53⟩ rfl).2⟩

/-- C10: `type_of` on a non-null assertion `e!` is exactly the type of `e`
with `remove_falsy` applied; it succeeds exactly when typing `e`
succeeds, and it fails with precisely the error with which typing `e`
fails. -/
theorem c10_nonnull :
    ∀ (env : Env) (fuel : Nat) (e : Expr) (sp : Span),
      type_of env (fuel + 1) (.tsNonNull e sp) =
        (type_of env fuel e).map remove_falsy
      ∧ ((∃ t, type_of env (fuel + 1) (.tsNonNull e sp) = .ok t) ↔
          (∃ t, type_of env fuel e = .ok t))
      ∧ ∀ err, (type_of env (fuel + 1) (.tsNonNull e sp) = .error err ↔
          type_of env fuel e = .error err) := by
  intro env fuel e sp
  have h1 : type_of env (fuel + 1) (.tsNonNull e sp) =
      (type_of env fuel e).map remove_falsy := rfl
  refine ⟨h1, ?_, ?_⟩
  · rw [h1]
    cases h : type_of env fuel e <;> simp [Except.map]
  · intro err
    rw [h1]
    cases h : type_of env fuel e <;> simp [Except.map]

end TsCheck
